import Mathlib

/-!
Shallow embedding of the Pirate Chain block-scanning engine
(`scripts/scan_blocks.py`) and proofs about its specification.

Modelling conventions, used uniformly below:
* Python floats are modelled as rationals (`ℚ`); the float arithmetic in the
  source is plain addition and subtraction, so the algebraic identities
  carry over.
* Python `set`s of addresses are modelled as `List String` with membership
  semantics; the source only relies on membership, emptiness, and "pick an
  element that startswith b", so a list that fixes one deterministic
  enumeration order is a faithful model of one concrete run.
* JSON dictionaries are modelled as structures whose optional JSON fields
  become `Option` (or a neutral default where the source uses `.get(k, 0)`).
* Calendar dates (`utc_date`, `strftime("%Y-%m-%d")`) are modelled as the UTC
  day index `⌊ts / 86400⌋`; the formatted string is an injective rendering of
  that day index, so equality of dates is preserved.
* A CLI/RPC lookup of a previous transaction (`get_prev_tx`) is modelled as a
  pure function `String → Option Tx`, `none` meaning the lookup raised.
-/

namespace PirateScan

/-- scriptPubKey of a transparent output: type tag, reqSigs, addresses. -/
structure ScriptPubKey where
  type : String
  reqSigs : Nat
  addresses : List String
  deriving DecidableEq, Repr

/-- A transparent output (`vout` entry): value plus scriptPubKey. -/
structure VOut where
  value : ℚ
  scriptPubKey : ScriptPubKey
  deriving DecidableEq, Repr

/-- A Sprout joinsplit entry: the two transparent-equivalent values. -/
structure JoinSplit where
  vpub_old : ℚ
  vpub_new : ℚ
  deriving DecidableEq, Repr

/-- A transparent input (`vin` entry).  `coinbase` models presence of the
`"coinbase"` key; `address` an already-resolved address; `txid`/`voutIdx`
the reference to a previous output. -/
structure VIn where
  coinbase : Bool
  address : Option String
  txid : Option String
  voutIdx : Option Nat
  deriving DecidableEq, Repr

/-- A decoded transaction.  `vShieldedSpend`/`vShieldedOutput` only matter
through emptiness, so they are modelled by their lengths; `valueBalance`
absent is modelled as `0` (the source reads it with default `0` and tests
truthiness, and `0` and absent are both falsy). -/
structure Tx where
  txid : String
  vin : List VIn
  vout : List VOut
  vShieldedSpend : Nat
  vShieldedOutput : Nat
  vjoinsplit : List JoinSplit
  valueBalance : ℚ
  decryptedoutputs : List String
  deriving DecidableEq, Repr

/-- Notary identity from the notaries lookup table. -/
structure Notary where
  name : String
  season : String
  address : String
  deriving DecidableEq, Repr

/-- A block as fetched with verbosity 2: time plus decoded transactions.
(The txid-only fallback branch of `process_block` is not exercised at this
verbosity and is not modelled.) -/
structure Block where
  time : Int
  tx : List Tx
  deriving DecidableEq, Repr

-- The `TxType` string constants.
namespace TxType
def COINBASE : String := "coinbase"
def COINBASE_SHIELDING : String := "coinbase_shielding"
def DPOW : String := "dpow"
def ATOMIC_SWAP : String := "atomic_swap"
def ATOMIC_SWAP_COMPLETE : String := "atomic_swap_complete"
def TURNSTILE : String := "turnstile"
def UNKNOWN_TRANSPARENT : String := "unknown_transparent"
def UNKNOWN : String := "unknown"
def SHIELDED : String := "shielded"
end TxType

/-- `utc_date`: UTC calendar day of an epoch timestamp, as a day index
(the source renders it as "%Y-%m-%d", an injective image of this index). -/
def utc_date (ts : Int) : Int := ts.fdiv 86400

/-- `collect_vout_addresses`: addresses of all transparent outputs plus any
decrypted-output addresses. -/
def collect_vout_addresses (tx : Tx) : List String :=
  (tx.vout.flatMap (fun v => v.scriptPubKey.addresses)) ++ tx.decryptedoutputs

/-- `collect_vin_addresses` without a previous-tx lookup (the
`prev_tx_lookup=None` call shape): only already-resolved `address` fields. -/
def collect_vin_addresses_simple (tx : Tx) : List String :=
  tx.vin.filterMap (fun v => v.address)

/-- `collect_vin_addresses` with a previous-tx lookup.  For an input with no
resolved address but with a txid and vout index, the previous transaction is
looked up and addresses of the referenced output collected; an out-of-range
index contributes nothing.  A failing lookup raises in the source, modelled
as result `none`. -/
def collect_vin_addresses (lookup : String → Option Tx) : List VIn → Option (List String)
  | [] => some []
  | v :: rest =>
    match v.address with
    | some a => (collect_vin_addresses lookup rest).map (fun l => a :: l)
    | none =>
      match v.txid, v.voutIdx with
      | some ptxid, some idx =>
        match lookup ptxid with
        | none => none
        | some prev =>
          let here : List String :=
            match prev.vout.get? idx with
            | some pv => pv.scriptPubKey.addresses
            | none => []
          (collect_vin_addresses lookup rest).map (fun l => here ++ l)
      | _, _ => collect_vin_addresses lookup rest

/-- `is_coinbase_tx`: the first input carries the coinbase marker. -/
def is_coinbase_tx (tx : Tx) : Bool :=
  match tx.vin with
  | [] => false
  | v :: _ => v.coinbase

/-- `has_shielded_parts`: any shielded spend/output, any joinsplit, or a
nonzero (truthy) valueBalance. -/
def has_shielded_parts (tx : Tx) : Bool :=
  tx.vShieldedSpend ≠ 0 || tx.vShieldedOutput ≠ 0 || !tx.vjoinsplit.isEmpty
    || tx.valueBalance ≠ 0

/-- The source's `has_transparent_io` (it tests only `tx.get("vout")`):
the transaction has transparent outputs. -/
def has_transparent_outs (tx : Tx) : Bool :=
  !tx.vout.isEmpty

/-- `shielded_value`: absolute value of valueBalance. -/
def shielded_value (tx : Tx) : ℚ := |tx.valueBalance|

/-- `detect_notary`: first address present in the notary lookup. -/
def detect_notary (addrs : List String) (notary_lookup : List (String × Notary)) :
    Option Notary :=
  match addrs with
  | [] => none
  | a :: rest =>
    match notary_lookup.lookup a with
    | some n => some n
    | none => detect_notary rest notary_lookup

/-- `sum_vout_values`: total transparent output value. -/
def sum_vout_values (tx : Tx) : ℚ :=
  (tx.vout.map (fun v => v.value)).sum

/-- `addr.startswith("b")`: the address is in the reserved "b" class of
multisig P2SH addresses.  (Structural first-character test; the source only
ever tests the one-character "b" class.) -/
def starts_with_b (a : String) : Bool := a.data.head? == some 'b'

/-- Whether one output is "multisig-like": multisig/scripthash script type,
more than one required signature, or an address in the reserved "b" class. -/
def vout_multisig_like (v : VOut) : Bool :=
  v.scriptPubKey.type == "multisig" || v.scriptPubKey.type == "scripthash"
    || v.scriptPubKey.reqSigs > 1
    || v.scriptPubKey.addresses.any (fun a => starts_with_b a)

/-- `first_multisig_addr`: first address starting with "b". -/
def first_multisig_addr (addresses : List String) : Option String :=
  addresses.find? (fun a => starts_with_b a)

/-- The fixed migration window test of `classify_tx`:
`datetime(2018,12,15) ≤ utcfromtimestamp(ts) ≤ datetime(2019,1,31)`, guarded
by truthiness of the timestamp.  In epoch seconds the two datetime bounds are
1544832000 (2018-12-15 00:00:00 UTC) and 1548892800 (2019-01-31 00:00:00 UTC). -/
def in_turnstile_window (timestamp : Option Int) : Bool :=
  match timestamp with
  | none => false
  | some ts => ts ≠ 0 && 1544832000 ≤ ts && ts ≤ 1548892800

/-- `classify_tx`: the ordered first-match decision procedure.  Returns
(category, notary, phase, swap address). -/
def classify_tx (tx : Tx) (vin_addrs vout_addrs : List String)
    (notary_lookup : List (String × Notary)) (miner_addresses : List String)
    (timestamp : Option Int) :
    String × Option Notary × Option String × Option String :=
  let all_addrs := vin_addrs ++ vout_addrs
  if is_coinbase_tx tx then
    (TxType.COINBASE, none, none, none)
  else
    match detect_notary all_addrs notary_lookup with
    | some notary => (TxType.DPOW, some notary, none, none)
    | none =>
      let transparent := has_transparent_outs tx
      let transparent_inputs := !vin_addrs.isEmpty
      let shielded := has_shielded_parts tx
      let multisig_like_out := tx.vout.any vout_multisig_like
      let multisig_like_in := vin_addrs.any (fun a => starts_with_b a)
      let swap_out_addr := first_multisig_addr vout_addrs
      let swap_in_addr := first_multisig_addr vin_addrs
      if shielded && multisig_like_out then
        (TxType.ATOMIC_SWAP, none, some "start", swap_out_addr)
      else if shielded && multisig_like_in && !transparent then
        (TxType.ATOMIC_SWAP_COMPLETE, none, some "complete", swap_in_addr)
      else if shielded && transparent && !multisig_like_out && !transparent_inputs then
        (TxType.TURNSTILE, none, none, none)
      else if shielded && transparent_inputs && !transparent then
        if !(vin_addrs.filter (fun a => miner_addresses.contains a)).isEmpty then
          (TxType.COINBASE_SHIELDING, none, none, none)
        else if in_turnstile_window timestamp then
          (TxType.TURNSTILE, none, none, none)
        else
          (TxType.UNKNOWN_TRANSPARENT, none, none, none)
      else if transparent && (shielded || multisig_like_out) then
        (TxType.ATOMIC_SWAP, none, some "start", swap_out_addr)
      else if transparent then
        (TxType.UNKNOWN_TRANSPARENT, none, none, none)
      else
        (TxType.SHIELDED, none, none, none)

/-- `compute_fee`: fee = vin_sum − vout_sum − Σ vpub_old + Σ vpub_new +
valueBalance, clamped below at 0; an unavailable total input counts as 0. -/
def compute_fee (total_in : Option ℚ) (total_out : ℚ) (tx : Tx) : ℚ :=
  let vin_sum := total_in.getD 0
  let vb := tx.valueBalance
  let vpub_old := (tx.vjoinsplit.map (fun js => js.vpub_old)).sum
  let vpub_new := (tx.vjoinsplit.map (fun js => js.vpub_new)).sum
  let fee := vin_sum - total_out - vpub_old + vpub_new + vb
  if fee < 0 then 0 else fee

/-- `fetch_input_total`: sum referenced previous-output values.  An input
without a previous txid is skipped; a missing vout index or an out-of-range
index is skipped; a failing lookup makes the whole total unavailable
(`none`), as the source returns `None` from its exception handler. -/
def fetch_input_total (lookup : String → Option Tx) : List VIn → Option ℚ
  | [] => some 0
  | v :: rest =>
    match v.txid with
    | none => fetch_input_total lookup rest
    | some ptxid =>
      match lookup ptxid with
      | none => none
      | some prev =>
        match v.voutIdx with
        | none => fetch_input_total lookup rest
        | some idx =>
          match prev.vout.get? idx with
          | some pv => (fetch_input_total lookup rest).map (fun t => pv.value + t)
          | none => fetch_input_total lookup rest

/-! ### Persistence layer -/

/-- String insertion sort (ascending), used to model `sorted(...)`. -/
def insertSorted (a : String) : List String → List String
  | [] => [a]
  | b :: rest => if a ≤ b then a :: b :: rest else b :: insertSorted a rest

/-- Model of `json.dumps(sorted(addr_set))`: the sorted, deduplicated
address list (the JSON rendering is an injective image of this list). -/
def sortedNub (l : List String) : List String :=
  l.eraseDups.foldr insertSorted []

/-- Row of `daily_stats`, keyed by (date, tx_type). -/
structure DailyRow where
  date : Int
  tx_type : String
  tx_count : Int
  total_fee : ℚ
  total_amount : ℚ
  deriving DecidableEq, Repr

/-- Row of `miners`, keyed by address. -/
structure MinerRow where
  address : String
  name : String
  first_seen : Int
  last_seen : Int
  total_amount : ℚ
  tx_count : Int
  deriving DecidableEq, Repr

/-- Row of `coinbase_txs`. -/
structure CoinbaseRow where
  txid : String
  block_height : Int
  timestamp : Int
  date : Int
  address : Option String
  amount : ℚ
  pool_name : Option String
  deriving DecidableEq, Repr

/-- Row of `coinbase_shielding_txs`. -/
structure ShieldingRow where
  txid : String
  block_height : Int
  timestamp : Int
  date : Int
  in_addresses : List String
  total_in : Option ℚ
  fee : ℚ
  deriving DecidableEq, Repr

/-- Row of `dpow_txs`. -/
structure DpowRow where
  txid : String
  block_height : Int
  timestamp : Int
  date : Int
  notary_name : Option String
  notary_season : Option String
  address : Option String
  total_in : Option ℚ
  total_out : ℚ
  fee : ℚ
  deriving DecidableEq, Repr

/-- Row of `atomic_swap_txs`. -/
structure SwapRow where
  txid : String
  block_height : Int
  timestamp : Int
  date : Int
  phase : String
  swap_addr : Option String
  complete_txid : Option String
  complete_block_height : Option Int
  complete_timestamp : Option Int
  in_addresses : List String
  out_addresses : List String
  total_in : Option ℚ
  total_out : Option ℚ
  fee : Option ℚ
  deriving DecidableEq, Repr

/-- Row of `turnstile_txs` and of `unknown_transparent_txs` (same shape). -/
structure FlowRow where
  txid : String
  block_height : Int
  timestamp : Int
  date : Int
  in_addresses : List String
  out_addresses : List String
  total_in : Option ℚ
  total_out : ℚ
  fee : ℚ
  deriving DecidableEq, Repr

/-- Row of `unknown_txs`. -/
structure UnknownRow where
  txid : String
  block_height : Int
  timestamp : Int
  date : Int
  note : String
  deriving DecidableEq, Repr

/-- Row of `shielded_txs`. -/
structure ShieldedRow where
  txid : String
  block_height : Int
  timestamp : Int
  date : Int
  deriving DecidableEq, Repr

/-- Row of `processed_blocks`, keyed by block_height. -/
structure ProcessedRow where
  block_height : Int
  timestamp : Int
  date : Int
  deriving DecidableEq, Repr

/-- The whole SQLite database of `ensure_schema`, one list per table. -/
structure DB where
  coinbase_txs : List CoinbaseRow
  coinbase_shielding_txs : List ShieldingRow
  dpow_txs : List DpowRow
  atomic_swap_txs : List SwapRow
  turnstile_txs : List FlowRow
  unknown_transparent_txs : List FlowRow
  unknown_txs : List UnknownRow
  shielded_txs : List ShieldedRow
  daily_stats : List DailyRow
  miners : List MinerRow
  processed_blocks : List ProcessedRow
  deriving DecidableEq, Repr

/-- The freshly created, empty database. -/
def emptyDB : DB :=
  { coinbase_txs := [], coinbase_shielding_txs := [], dpow_txs := [], atomic_swap_txs := [], turnstile_txs := [], unknown_transparent_txs := [], unknown_txs := [], shielded_txs := [], daily_stats := [], miners := [], processed_blocks := [] }

/-- `INSERT OR IGNORE` on a table with primary key `key`: a no-op when a row
with the same key exists, otherwise an append. -/
def insertOrIgnore {α : Type} (key : α → String) (row : α) (table : List α) :
    List α :=
  if table.any (fun r => key r == key row) then table else table ++ [row]

/-- `update_daily_stats`: upsert on (date, tx_type), incrementing tx_count by
one and adding fee/amount on conflict. -/
def update_daily_stats (date : Int) (tx_type : String) (fee amount : ℚ)
    (stats : List DailyRow) : List DailyRow :=
  if stats.any (fun r => r.date == date && r.tx_type == tx_type) then
    stats.map (fun r =>
      if r.date == date && r.tx_type == tx_type then
        { r with tx_count := r.tx_count + 1, total_fee := r.total_fee + fee, total_amount := r.total_amount + amount }
      else r)
  else
    stats ++ [{ date := date, tx_type := tx_type, tx_count := 1, total_fee := fee, total_amount := amount }]

/-- `upsert_miner`: insert keyed by address; on conflict take the new name
(the callers always pass a non-null name, so the COALESCE picks it), refresh
last_seen and accumulate amount and tx_count. -/
def upsert_miner (address name : String) (ts : Int) (amount : ℚ)
    (miners : List MinerRow) : List MinerRow :=
  if miners.any (fun r => r.address == address) then
    miners.map (fun r =>
      if r.address == address then
        { r with name := name, last_seen := ts, total_amount := r.total_amount + amount, tx_count := r.tx_count + 1 }
      else r)
  else
    miners ++ [{ address := address, name := name, first_seen := ts, last_seen := ts, total_amount := amount, tx_count := 1 }]

/-- Python string truthiness for an optional address. -/
def optTruthy (o : Option String) : Bool :=
  match o with
  | some s => s ≠ ""
  | none => false

/-- `store_coinbase`: upsert the miner account of the first output address,
add every output address to the in-memory miner set, insert the coinbase row
and bump daily stats for `coinbase`.  Returns the new database and the
updated miner address set. -/
def store_coinbase (tx : Tx) (block_height ts : Int)
    (pool_lookup : List (String × String)) (miner_addresses : List String)
    (db : DB) : DB × List String :=
  let date := utc_date ts
  let total_out := sum_vout_values tx
  let addrs := collect_vout_addresses tx
  let miners' := miner_addresses ++ addrs.filter (fun a => !miner_addresses.contains a)
  let addr := addrs.head?
  let pool_name :=
    match addr with
    | some a => (pool_lookup.find? (fun p => p.2 == a)).map (fun p => p.1)
    | none => none
  let db1 :=
    if optTruthy addr then
      { db with miners := upsert_miner (addr.getD "") (pool_name.getD "unknown miner") ts total_out db.miners }
    else db
  let row : CoinbaseRow :=
    { txid := tx.txid, block_height := block_height, timestamp := ts, date := date, address := addr, amount := total_out, pool_name := pool_name }
  let db2 := { db1 with coinbase_txs := insertOrIgnore CoinbaseRow.txid row db1.coinbase_txs }
  ({ db2 with daily_stats := update_daily_stats date TxType.COINBASE 0 total_out db2.daily_stats },
   miners')

/-- `store_coinbase_shielding`. -/
def store_coinbase_shielding (tx : Tx) (block_height ts : Int)
    (total_in : Option ℚ) (fee : ℚ) (vin_addrs : List String) (db : DB) : DB :=
  let date := utc_date ts
  let row : ShieldingRow :=
    { txid := tx.txid, block_height := block_height, timestamp := ts, date := date, in_addresses := sortedNub vin_addrs, total_in := total_in, fee := fee }
  let db1 := { db with coinbase_shielding_txs := insertOrIgnore ShieldingRow.txid row db.coinbase_shielding_txs }
  { db1 with daily_stats := update_daily_stats date TxType.COINBASE_SHIELDING fee (shielded_value tx) db1.daily_stats }

/-- `store_dpow`. -/
def store_dpow (tx : Tx) (block_height ts : Int) (notary : Option Notary)
    (total_in : Option ℚ) (total_out fee : ℚ) (db : DB) : DB :=
  let date := utc_date ts
  let row : DpowRow :=
    { txid := tx.txid, block_height := block_height, timestamp := ts, date := date, notary_name := notary.map (fun n => n.name), notary_season := notary.map (fun n => n.season), address := notary.map (fun n => n.address), total_in := total_in, total_out := total_out, fee := fee }
  let db1 := { db with dpow_txs := insertOrIgnore DpowRow.txid row db.dpow_txs }
  { db1 with daily_stats := update_daily_stats date TxType.DPOW fee total_out db1.daily_stats }

/-- Does a stored swap row match the completion UPDATE's WHERE clause
(`swap_addr=? AND phase='start'`)? -/
def swap_match (a : String) (r : SwapRow) : Bool :=
  r.swap_addr == some a && r.phase == "start"

/-- The SET clause of the completion UPDATE on one matching row. -/
def swap_apply_complete (ctxid : String) (h ts : Int) (fee tin tout : ℚ)
    (r : SwapRow) : SwapRow :=
  { r with phase := "complete", complete_txid := some ctxid, complete_block_height := some h, complete_timestamp := some ts, fee := some (r.fee.getD 0 + fee), total_in := some (r.total_in.getD 0 + tin), total_out := some (r.total_out.getD 0 + tout) }

/-- `store_atomic_swap`.  On phase `complete` with a truthy swap address,
first run the UPDATE against every stored row with that swap address and
phase `start`; if any row matched, commit and return.  Otherwise fall through
to an `INSERT OR IGNORE` of a fresh row, commit, and (for phase `start` only)
bump the daily stats.  Returns the new database together with the list of
database snapshots committed during the call (the source calls
`conn.commit()` inside this function). -/
def store_atomic_swap (tx : Tx) (block_height ts : Int) (total_in : Option ℚ)
    (total_out fee : ℚ) (phase : String) (swap_addr : Option String)
    (vin_addrs vout_addrs : List String) (db : DB) : DB × List DB :=
  let date := utc_date ts
  let in_addrs := sortedNub vin_addrs
  let out_addrs := sortedNub vout_addrs
  let txid := tx.txid
  let insertPath : DB → DB × List DB := fun d =>
    let row : SwapRow :=
      { txid := txid, block_height := block_height, timestamp := ts, date := date, phase := phase, swap_addr := swap_addr, complete_txid := none, complete_block_height := none, complete_timestamp := none, in_addresses := in_addrs, out_addresses := out_addrs, total_in := total_in, total_out := some total_out, fee := some fee }
    let d1 := { d with atomic_swap_txs := insertOrIgnore SwapRow.txid row d.atomic_swap_txs }
    -- conn.commit(); only `start` legs count toward daily stats
    let d2 :=
      if phase == "start" then
        { d1 with daily_stats := update_daily_stats date TxType.ATOMIC_SWAP fee total_out d1.daily_stats }
      else d1
    (d2, [d1])
  if phase == "complete" && optTruthy swap_addr then
    let a := (swap_addr.getD "")
    let rowcount := (db.atomic_swap_txs.filter (swap_match a)).length
    let updated := { db with atomic_swap_txs := db.atomic_swap_txs.map (fun r =>
        if swap_match a r then
          swap_apply_complete txid block_height ts fee (total_in.getD 0) total_out r
        else r) }
    if rowcount ≠ 0 then (updated, [updated]) else insertPath updated
  else insertPath db

/-- `store_turnstile`. -/
def store_turnstile (tx : Tx) (block_height ts : Int) (total_in : Option ℚ)
    (total_out fee : ℚ) (vin_addrs vout_addrs : List String) (db : DB) : DB :=
  let date := utc_date ts
  let row : FlowRow :=
    { txid := tx.txid, block_height := block_height, timestamp := ts, date := date, in_addresses := sortedNub vin_addrs, out_addresses := sortedNub vout_addrs, total_in := total_in, total_out := total_out, fee := fee }
  let db1 := { db with turnstile_txs := insertOrIgnore FlowRow.txid row db.turnstile_txs }
  { db1 with daily_stats := update_daily_stats date TxType.TURNSTILE fee total_out db1.daily_stats }

/-- `store_unknown_transparent`.  Note: the daily-stats bump uses
`TxType.UNKNOWN`, exactly as in the source. -/
def store_unknown_transparent (tx : Tx) (block_height ts : Int)
    (total_in : Option ℚ) (total_out fee : ℚ) (vin_addrs vout_addrs : List String)
    (db : DB) : DB :=
  let date := utc_date ts
  let row : FlowRow :=
    { txid := tx.txid, block_height := block_height, timestamp := ts, date := date, in_addresses := sortedNub vin_addrs, out_addresses := sortedNub vout_addrs, total_in := total_in, total_out := total_out, fee := fee }
  let db1 := { db with unknown_transparent_txs := insertOrIgnore FlowRow.txid row db.unknown_transparent_txs }
  { db1 with daily_stats := update_daily_stats date TxType.UNKNOWN fee total_out db1.daily_stats }

/-- `store_unknown`. -/
def store_unknown (tx : Tx) (block_height ts : Int) (note : String) (db : DB) : DB :=
  let date := utc_date ts
  let row : UnknownRow :=
    { txid := tx.txid, block_height := block_height, timestamp := ts, date := date, note := note }
  let db1 := { db with unknown_txs := insertOrIgnore UnknownRow.txid row db.unknown_txs }
  { db1 with daily_stats := update_daily_stats date TxType.UNKNOWN 0 0 db1.daily_stats }

/-- `store_shielded`. -/
def store_shielded (tx : Tx) (block_height ts : Int) (fee : ℚ) (db : DB) : DB :=
  let date := utc_date ts
  let row : ShieldedRow :=
    { txid := tx.txid, block_height := block_height, timestamp := ts, date := date }
  let db1 := { db with shielded_txs := insertOrIgnore ShieldedRow.txid row db.shielded_txs }
  { db1 with daily_stats := update_daily_stats date TxType.SHIELDED fee 0 db1.daily_stats }

/-- `is_block_processed`. -/
def is_block_processed (db : DB) (block_height : Int) : Bool :=
  db.processed_blocks.any (fun r => r.block_height == block_height)

/-- `mark_block_processed`. -/
def mark_block_processed (block_height ts : Int) (db : DB) : DB :=
  let row : ProcessedRow :=
    { block_height := block_height, timestamp := ts, date := utc_date ts }
  if db.processed_blocks.any (fun r => r.block_height == block_height) then db
  else { db with processed_blocks := db.processed_blocks ++ [row] }

/-! ### Scan controller -/

/-- Static context of a scan: the notaries table, the pool address table,
and the previous-transaction resolution (cache plus CLI, modelled as one
pure lookup; `none` means the CLI call raised). -/
structure Env where
  notary_lookup : List (String × Notary)
  pool_lookup : List (String × String)
  lookup : String → Option Tx

/-- State threaded through `process_block`: the connection's current
(uncommitted) view `db`, the in-memory miner address set, the list of
database snapshots durably committed so far, and whether an exception has
aborted the block (`ok = false`). -/
structure PBState where
  db : DB
  miners : List String
  commits : List DB
  ok : Bool

/-- One iteration of the transaction loop of `process_block`: derive address
sets and totals, classify, and dispatch to the matching store function.  A
raising previous-transaction lookup during address collection aborts the
block. -/
def process_tx (env : Env) (block_height ts : Int) (st : PBState) (tx : Tx) :
    PBState :=
  if !st.ok then st
  else
    let vout_addrs := collect_vout_addresses tx
    match collect_vin_addresses env.lookup tx.vin with
    | none => { st with ok := false }
    | some vin_addrs =>
      let total_out := sum_vout_values tx
      let total_in := fetch_input_total env.lookup tx.vin
      let fee := compute_fee total_in total_out tx
      let r := classify_tx tx vin_addrs vout_addrs env.notary_lookup st.miners (some ts)
      let tx_type := r.1
      let notary := r.2.1
      let phase := r.2.2.1
      let swap_addr := r.2.2.2
      if tx_type == TxType.COINBASE then
        let p := store_coinbase tx block_height ts env.pool_lookup st.miners st.db
        { st with db := p.1, miners := p.2 }
      else if tx_type == TxType.COINBASE_SHIELDING then
        { st with db := store_coinbase_shielding tx block_height ts total_in fee vin_addrs st.db }
      else if tx_type == TxType.DPOW then
        { st with db := store_dpow tx block_height ts notary total_in total_out fee st.db }
      else if tx_type == TxType.ATOMIC_SWAP || tx_type == TxType.ATOMIC_SWAP_COMPLETE then
        let p := store_atomic_swap tx block_height ts total_in total_out fee
          (phase.getD "start") swap_addr vin_addrs vout_addrs st.db
        { st with db := p.1, commits := st.commits ++ p.2 }
      else if tx_type == TxType.TURNSTILE then
        { st with db := store_turnstile tx block_height ts total_in total_out fee vin_addrs vout_addrs st.db }
      else if tx_type == TxType.UNKNOWN_TRANSPARENT then
        { st with db := store_unknown_transparent tx block_height ts total_in total_out fee vin_addrs vout_addrs st.db }
      else if tx_type == TxType.UNKNOWN then
        { st with db := store_unknown tx block_height ts "uncategorized" st.db }
      else
        { st with db := store_shielded tx block_height ts fee st.db }

/-- `process_block`: run every transaction of the block through
`process_tx`, then record the checkpoint and commit.  The committed
snapshots (in order) are collected in `commits`; when no exception occurred,
the final commit covers the checkpoint, so the final current state is also
the last committed one. -/
def process_block (env : Env) (block_height : Int) (b : Block)
    (db : DB) (miners : List String) : PBState :=
  let ts := b.time
  let st := b.tx.foldl (process_tx env block_height ts) ⟨db, miners, [], true⟩
  if st.ok then
    let db2 := mark_block_processed block_height ts st.db
    { st with db := db2, commits := st.commits ++ [db2] }
  else st

/-- The durable database visible after `process_block` ran from durable
state `db0`: the last committed snapshot; uncommitted changes of an aborted
block are rolled back when the connection closes. -/
def durable_after (db0 : DB) (st : PBState) : DB :=
  st.commits.getLastD db0

/-- The height loop of `main`: skip checkpointed heights; fetch and process
the rest; stop at the first failing height (a failed block fetch or an
exception inside `process_block`).  Returns the durable database, the miner
set, and whether the whole range was completed without a failure. -/
def scan_heights (env : Env) (blocks : Int → Option Block) :
    DB → List String → List Int → DB × List String × Bool
  | db, miners, [] => (db, miners, true)
  | db, miners, h :: rest =>
    if is_block_processed db h then scan_heights env blocks db miners rest
    else
      match blocks h with
      | none => (db, miners, false)
      | some b =>
        let st := process_block env h b db miners
        if st.ok then scan_heights env blocks st.db st.miners rest
        else (durable_after db st, st.miners, false)

/-- The inclusive height range `range(start, end + 1)`. -/
def heightRange (s e : Int) : List Int :=
  (List.range (e + 1 - s).toNat).map (fun i => s + i)

/-- `main`, reduced to its observable outcome: the process exit status and
the final durable database.  Exit status 1 when the block-count query fails
or the height range is invalid; otherwise the loop runs — breaking on the
first failing height — and `main` falls through to close the connection and
return, so the process exits 0 whether or not the loop was cut short. -/
def main_model (blockcount : Option Int) (startArg endArg : Int) (env : Env)
    (blocks : Int → Option Block) (db : DB) (miners : List String) :
    Nat × DB :=
  match blockcount with
  | none => (1, db)
  | some _ =>
    if startArg < 1 || endArg < startArg then (1, db)
    else
      let r := scan_heights env blocks db miners (heightRange startArg endArg)
      (0, r.1)

/-! ### Specification-side definitions -/

/-- The migration window as the specification words it: "the block timestamp
falls within a fixed historical migration window (2018-12-15 – 2019-01-31
UTC)", read with both endpoint dates included as whole calendar days: the
timestamp's UTC day lies between 2018-12-15 and 2019-01-31.  (Day 17880 is
2018-12-15, day 17927 is 2019-01-31.)  This is the reading the code is
compared against; the code's own bound is `in_turnstile_window`. -/
def migrationWindowSpec (ts : Int) : Bool :=
  17880 ≤ utc_date ts && utc_date ts ≤ 17927

/-! ### Concrete test vectors

Small concrete transactions, blocks and databases used as witnesses and
counterexamples below. -/

/-- A pay-to-pubkey-hash scriptPubKey. -/
def spkP (addrs : List String) : ScriptPubKey := ⟨"pubkeyhash", 1, addrs⟩

/-- A pay-to-script-hash scriptPubKey. -/
def spkS (addrs : List String) : ScriptPubKey := ⟨"scripthash", 1, addrs⟩

/-- A coinbase transaction paying 25/4 (6.25) to RXaaa. -/
def txCB : Tx := ⟨"cb1", [⟨true, none, none, none⟩], [⟨25/4, spkP ["RXaaa"]⟩], 0, 0, [], 0, []⟩

/-- A plain transparent transaction: one pubkeyhash output, no shielded
parts, no inputs referencing previous transactions. -/
def txUT : Tx := ⟨"t1", [], [⟨1, spkP ["Rout1"]⟩], 0, 0, [], 0, []⟩

/-- A t-to-z shielding transaction: one resolved transparent input address,
no transparent outputs, one shielded output. -/
def txShieldIn : Tx := ⟨"t2", [⟨false, some "Rin", none, none⟩], [], 0, 1, [], 0, []⟩

/-- An atomic-swap start leg: shielded spend plus a scripthash output of 5
to the multisig-class address bMulti. -/
def txSwapStart : Tx :=
  ⟨"s1", [⟨false, some "Rin", none, none⟩], [⟨5, spkS ["bMulti"]⟩], 1, 0, [], 0, []⟩

/-- A second, later start leg paying 7 to the same swap address bMulti. -/
def txSwapStart2 : Tx :=
  ⟨"s2", [⟨false, some "Rin2", none, none⟩], [⟨7, spkS ["bMulti"]⟩], 1, 0, [], 0, []⟩

/-- The completing leg: spends from bMulti, no transparent outputs, one
shielded output. -/
def txSwapComplete : Tx :=
  ⟨"c1", [⟨false, some "bMulti", none, none⟩], [], 0, 1, [], 0, []⟩

/-- A scan context with empty notary and pool tables and a previous-tx
lookup that always fails. -/
def env0 : Env := ⟨[], [], fun _ => none⟩

/-- Block at height 100, on UTC day 18048 (2019-06-01), with `txUT`. -/
def blkUT : Block := ⟨1559347200, [txUT]⟩

/-- Block with the single swap-start transaction `txSwapStart`. -/
def blkSwap : Block := ⟨1559347200, [txSwapStart]⟩

/-- Block with the single coinbase transaction `txCB`. -/
def blkCB : Block := ⟨1559347200, [txCB]⟩

/-- Database holding the stored start leg of `txSwapStart`. -/
def dbS1 : DB :=
  (store_atomic_swap txSwapStart 100 1559347200 (some 0) 5 0 "start" (some "bMulti")
    ["Rin"] ["bMulti"] emptyDB).1

/-- Database holding two start legs (`txSwapStart`, `txSwapStart2`) that
share the swap address bMulti. -/
def dbS2 : DB :=
  (store_atomic_swap txSwapStart2 101 1559347201 (some 0) 7 0 "start" (some "bMulti")
    ["Rin2"] ["bMulti"] dbS1).1

/-- An otherwise-empty database whose height 100 is checkpointed. -/
def dbProcessed100 : DB :=
  { emptyDB with processed_blocks := [⟨100, 1559347200, 18048⟩] }

/-- The classifier's decision procedure as an explicit ordered list of
guarded rules (guard, category), in source order; rule 6's three sub-cases
appear as three consecutive guarded rules.  Used to state that `classify_tx`
is first-match over its ordered rules. -/
def classifyRules (tx : Tx) (vin_addrs vout_addrs : List String)
    (notary_lookup : List (String × Notary)) (miner_addresses : List String)
    (timestamp : Option Int) : List (Bool × String) :=
  let transparent := has_transparent_outs tx
  let transparent_inputs := !vin_addrs.isEmpty
  let shielded := has_shielded_parts tx
  let multisig_like_out := tx.vout.any vout_multisig_like
  let multisig_like_in := vin_addrs.any (fun a => starts_with_b a)
  let miner_hit := !(vin_addrs.filter (fun a => miner_addresses.contains a)).isEmpty
  [ (is_coinbase_tx tx, TxType.COINBASE),
    ((detect_notary (vin_addrs ++ vout_addrs) notary_lookup).isSome, TxType.DPOW),
    (shielded && multisig_like_out, TxType.ATOMIC_SWAP),
    (shielded && multisig_like_in && !transparent, TxType.ATOMIC_SWAP_COMPLETE),
    (shielded && transparent && !multisig_like_out && !transparent_inputs, TxType.TURNSTILE),
    (shielded && transparent_inputs && !transparent && miner_hit, TxType.COINBASE_SHIELDING),
    (shielded && transparent_inputs && !transparent && in_turnstile_window timestamp, TxType.TURNSTILE),
    (shielded && transparent_inputs && !transparent, TxType.UNKNOWN_TRANSPARENT),
    (transparent && (shielded || multisig_like_out), TxType.ATOMIC_SWAP),
    (transparent, TxType.UNKNOWN_TRANSPARENT),
    (true, TxType.SHIELDED) ]

/-- The category of the first rule of `classifyRules` whose guard holds
(the final guard is `true`, so the default is never reached). -/
def classify_first_match (tx : Tx) (vin_addrs vout_addrs : List String)
    (notary_lookup : List (String × Notary)) (miner_addresses : List String)
    (timestamp : Option Int) : String :=
  (((classifyRules tx vin_addrs vout_addrs notary_lookup miner_addresses timestamp).find?
      (fun r => r.1)).map (fun r => r.2)).getD TxType.SHIELDED

/-- The closed taxonomy of categories `classify_tx` can produce. -/
def taxonomy : List String :=
  [TxType.COINBASE, TxType.DPOW, TxType.ATOMIC_SWAP, TxType.ATOMIC_SWAP_COMPLETE,
   TxType.TURNSTILE, TxType.COINBASE_SHIELDING, TxType.UNKNOWN_TRANSPARENT,
   TxType.SHIELDED]

/-- A transaction that never classifies as an atomic-swap leg, whatever the
miner set and resolved input addresses are at the time it is processed. -/
def NoSwapTx (env : Env) (ts : Int) (tx : Tx) : Prop :=
  ∀ (mset vin2 : List String),
    (classify_tx tx vin2 (collect_vout_addresses tx) env.notary_lookup mset (some ts)).1
        ≠ TxType.ATOMIC_SWAP ∧
    (classify_tx tx vin2 (collect_vout_addresses tx) env.notary_lookup mset (some ts)).1
        ≠ TxType.ATOMIC_SWAP_COMPLETE

/-! ### C4: compute_fee -/

/-- C4: `compute_fee totalIn totalOut tx` equals
totalIn − totalOut − Σ vpub_old + Σ vpub_new + valueBalance clamped below at
0 (with an unavailable totalIn treated as 0), and is never negative. -/
theorem compute_fee_eq_clamped_formula (total_in : Option ℚ) (total_out : ℚ) (tx : Tx) :
    compute_fee total_in total_out tx =
      max (total_in.getD 0 - total_out - (tx.vjoinsplit.map (fun js => js.vpub_old)).sum
        + (tx.vjoinsplit.map (fun js => js.vpub_new)).sum + tx.valueBalance) 0
    ∧ 0 ≤ compute_fee total_in total_out tx := by
  constructor
  · simp only [compute_fee]
    split
    · next h => rw [max_eq_right (le_of_lt h)]
    · next h => rw [max_eq_left (not_lt.mp h)]
  · simp only [compute_fee]
    split
    · exact le_refl 0
    · next h => exact not_lt.mp h

/-! ### C6: idempotence of a second scan over a processed height -/

/-- `range(h, h + 1)` is the one-element list `[h]`. -/
theorem heightRange_self (h : Int) : heightRange h h = [h] := by
  unfold heightRange
  have h1 : h + 1 - h = 1 := by ring
  rw [h1]
  simp [List.range_succ]

/-- C6: re-running the scan over `[h, h]` for an already-checkpointed height
h leaves the database (every table) and the miner set unchanged and
completes successfully, so nothing — in particular no daily-stats row — is
double-counted. -/
theorem scan_processed_height_noop (env : Env) (blocks : Int → Option Block)
    (db : DB) (miners : List String) (h : Int)
    (hproc : is_block_processed db h = true) :
    scan_heights env blocks db miners (heightRange h h) = (db, miners, true) := by
  rw [heightRange_self]
  unfold scan_heights
  rw [hproc]
  simp [scan_heights]

/-- Witness for C6 at a concrete database whose height 100 is checkpointed. -/
theorem scan_processed_height_noop_witness :
    is_block_processed dbProcessed100 100 = true ∧
    scan_heights env0 (fun _ => none) dbProcessed100 [] (heightRange 100 100) =
      (dbProcessed100, [], true) :=
  ⟨by decide, scan_processed_height_noop env0 (fun _ => none) dbProcessed100 [] 100 (by decide)⟩

/-! ### C7: exit status -/

/-- Counterexample to C7: with a valid range `[1, 1]`, a fresh database and
a node whose `getblock` fails at height 1 (the first unrecoverable height
failure), the scan loop stops reporting failure, yet `main` exits with
status 0, not non-zero. -/
theorem main_exit_zero_on_height_failure :
    (scan_heights env0 (fun _ => none) emptyDB [] (heightRange 1 1)).2.2 = false ∧
    (main_model (some 10) 1 1 env0 (fun _ => none) emptyDB []).1 = 0 := by
  constructor
  · decide
  · decide

/-- C7 (amended): the scan exits with status 0 exactly when the initial
block-count query succeeds and the height range is valid; an unrecoverable
height failure stops the loop but still exits 0, and non-zero statuses come
only from a failed block-count query or an invalid range. -/
theorem main_exit_zero_iff (bc : Option Int) (s e : Int) (env : Env)
    (blocks : Int → Option Block) (db : DB) (miners : List String) :
    (main_model bc s e env blocks db miners).1 = 0 ↔ (bc ≠ none ∧ 1 ≤ s ∧ s ≤ e) := by
  cases bc with
  | none => simp [main_model]
  | some n =>
    simp only [main_model]
    by_cases hc : (s < 1 || e < s) = true
    · simp only [hc, if_true]
      simp at hc
      constructor
      · intro h; omega
      · intro h; omega
    · simp only [hc, if_false]
      simp at hc
      constructor
      · intro _; exact ⟨by simp, by omega, by omega⟩
      · intro _; rfl

/-! ### C8: the shielding rule (rule 6) and the migration window -/

/-- Counterexample to C8: a shielding transaction (shielded output,
transparent input Rin, no transparent outputs, no miner hit) at timestamp
1548936000 — 2019-01-31 12:00:00 UTC, which lies within the claim's window
"2018-12-15 through 2019-01-31 UTC" — is classified `unknown_transparent`,
not `turnstile`: the code's upper bound is midnight at the START of
2019-01-31 (`datetime(2019, 1, 31)`), not the end of that day. -/
theorem classify_window_end_of_day_mismatch :
    migrationWindowSpec 1548936000 = true ∧
    in_turnstile_window (some 1548936000) = false ∧
    (classify_tx txShieldIn ["Rin"] [] [] [] (some 1548936000)).1 = TxType.UNKNOWN_TRANSPARENT ∧
    TxType.UNKNOWN_TRANSPARENT ≠ TxType.TURNSTILE := by
  refine ⟨by decide, by decide, by decide, by decide⟩

/-- C8 (amended): for a transaction with shielded fields, resolved
transparent input addresses, and no transparent outputs, that is not caught
by an earlier rule (not coinbase, no notary address, no multisig-class input
address): a known miner/pool input address gives `coinbase_shielding`;
otherwise the result is `turnstile` if and only if
1544832000 ≤ timestamp ≤ 1548892800 (2018-12-15 00:00:00 UTC through the
first instant of 2019-01-31 UTC), and `unknown_transparent` in all other
cases. -/
theorem classify_shielding_rule (tx : Tx) (vin_addrs vout_addrs : List String)
    (nl : List (String × Notary)) (ma : List String) (ts : Int)
    (hcb : is_coinbase_tx tx = false)
    (hnot : detect_notary (vin_addrs ++ vout_addrs) nl = none)
    (hsh : has_shielded_parts tx = true)
    (hin : vin_addrs ≠ [])
    (hout : tx.vout = [])
    (hmsi : vin_addrs.any (fun a => starts_with_b a) = false) :
    (classify_tx tx vin_addrs vout_addrs nl ma (some ts)).1 =
      (if vin_addrs.any (fun a => ma.contains a) then TxType.COINBASE_SHIELDING
       else if 1544832000 ≤ ts ∧ ts ≤ 1548892800 then TxType.TURNSTILE
       else TxType.UNKNOWN_TRANSPARENT) := by
  simp only [classify_tx, hcb, hnot, Bool.false_eq_true, if_false]
  simp only [has_transparent_outs, hout, hsh, hmsi, List.isEmpty_nil, List.any_nil,
    Bool.false_eq_true, if_false, Bool.not_false, Bool.and_false, Bool.false_and,
    Bool.and_true, Bool.true_and, Bool.not_true, Bool.false_or]
  have hin2 : vin_addrs.isEmpty = false := by
    cases vin_addrs with
    | nil => exact absurd rfl hin
    | cons a l => rfl
  rw [hin2]
  simp only [Bool.not_false, Bool.and_true, Bool.true_and, if_true]
  have hfilter : (vin_addrs.filter (fun a => ma.contains a)).isEmpty = !vin_addrs.any (fun a => ma.contains a) := by
    cases hany : vin_addrs.any (fun a => ma.contains a) with
    | true =>
      simp only [Bool.not_true]
      rcases List.any_eq_true.mp hany with ⟨x, hx, hmx⟩
      have : x ∈ vin_addrs.filter (fun a => ma.contains a) := List.mem_filter.mpr ⟨hx, hmx⟩
      cases hfe : (vin_addrs.filter (fun a => ma.contains a)) with
      | nil => rw [hfe] at this; exact absurd this (List.not_mem_nil x)
      | cons b l => rfl
    | false =>
      simp only [Bool.not_false]
      have : vin_addrs.filter (fun a => ma.contains a) = [] := by
        apply List.filter_eq_nil_iff.mpr
        intro x hx
        intro hmx
        have : vin_addrs.any (fun a => ma.contains a) = true := List.any_eq_true.mpr ⟨x, hx, hmx⟩
        rw [this] at hany
        exact Bool.true_eq_false.mp hany
      rw [this]
      rfl
  rw [hfilter]
  have hwin : in_turnstile_window (some ts) = decide (1544832000 ≤ ts ∧ ts ≤ 1548892800) := by
    unfold in_turnstile_window
    by_cases h1 : (1544832000 : Int) ≤ ts
    · by_cases h2 : ts ≤ 1548892800
      · have hz : ts ≠ 0 := by omega
        simp [h1, h2, hz]
      · simp [h2]
    · simp [h1]
  cases hany : vin_addrs.any (fun a => ma.contains a) with
  | true => simp
  | false =>
    simp only [Bool.not_false, if_true]
    rw [hwin]
    by_cases hw : (1544832000 ≤ ts ∧ ts ≤ 1548892800)
    · rw [decide_eq_true hw]
      simp [hw]
    · rw [decide_eq_false hw]
      simp [hw]

/-- Witness for C8 (amended): the shielding transaction with its input
address in the miner set is classified `coinbase_shielding`. -/
theorem classify_shielding_rule_witness :
    (classify_tx txShieldIn ["Rin"] [] [] ["Rin"] (some 100)).1 = TxType.COINBASE_SHIELDING := by
  have h := classify_shielding_rule txShieldIn ["Rin"] [] [] ["Rin"] 100
    (by decide) (by decide) (by decide) (by decide) (by decide) (by decide)
  simpa using h

/-! ### C3: the classifier is total, deterministic, first-match -/

/-- Every classification lands in the closed taxonomy. -/
theorem classify_tx_cat_mem (tx : Tx) (vi vo : List String)
    (nl : List (String × Notary)) (ma : List String) (ts : Option Int) :
    (classify_tx tx vi vo nl ma ts).1 ∈ taxonomy := by
  unfold classify_tx taxonomy
  dsimp only
  cases hcb : is_coinbase_tx tx
  · simp only [Bool.false_eq_true, if_false]
    cases hdn : detect_notary (vi ++ vo) nl
    · dsimp only
      split_ifs <;> simp
    · dsimp only
      simp
  · simp

/-- C3: the classifier is a total function (so it returns exactly one
category and never fails); its category is computed by first-match over the
ordered guarded rules `classifyRules`; and the result always lies in the
closed taxonomy — in particular any transaction matching none of rules 1-7
resolves to `unknown_transparent` or `shielded`, the only categories of the
catch-all rules. -/
theorem classify_total_first_match (tx : Tx) (vi vo : List String)
    (nl : List (String × Notary)) (ma : List String) (ts : Option Int) :
    (classify_tx tx vi vo nl ma ts).1 = classify_first_match tx vi vo nl ma ts ∧
    (classify_tx tx vi vo nl ma ts).1 ∈ taxonomy := by
  constructor
  · unfold classify_tx classify_first_match classifyRules
    dsimp only
    cases hcb : is_coinbase_tx tx
    · cases hdn : detect_notary (vi ++ vo) nl
      · dsimp only
        generalize has_shielded_parts tx = sh
        generalize tx.vout.any vout_multisig_like = mo
        generalize (vi.any fun a => starts_with_b a) = mi
        generalize has_transparent_outs tx = tr
        generalize vi.isEmpty = ie
        generalize (List.filter (fun a => ma.contains a) vi).isEmpty = mh
        generalize in_turnstile_window ts = w
        cases sh <;> cases mo <;> cases mi <;> cases tr <;> cases ie <;> cases mh <;>
          cases w <;> rfl
      · rfl
    · rfl
  · exact classify_tx_cat_mem tx vi vo nl ma ts

/-! ### C9: the `unknown` category is dead code -/

/-- `store_coinbase` leaves `unknown_txs` untouched. -/
theorem store_coinbase_unknown_txs (tx : Tx) (h ts : Int)
    (pl : List (String × String)) (ms : List String) (db : DB) :
    ((store_coinbase tx h ts pl ms db).1).unknown_txs = db.unknown_txs := by
  unfold store_coinbase
  dsimp only
  split <;> rfl

/-- `store_atomic_swap` leaves `unknown_txs` untouched, both in its result
and in every snapshot it commits. -/
theorem store_atomic_swap_unknown_txs (tx : Tx) (bh ts2 : Int) (ti : Option ℚ)
    (to2 fee : ℚ) (phase : String) (sa : Option String) (vin vout : List String)
    (db : DB) :
    ((store_atomic_swap tx bh ts2 ti to2 fee phase sa vin vout db).1).unknown_txs = db.unknown_txs ∧
    ∀ d ∈ (store_atomic_swap tx bh ts2 ti to2 fee phase sa vin vout db).2,
      d.unknown_txs = db.unknown_txs := by
  unfold store_atomic_swap
  dsimp only
  split
  · split
    · refine ⟨rfl, ?_⟩
      intro d hd
      have hd2 : d = _ := List.eq_of_mem_singleton hd
      rw [hd2]
    · constructor
      · split <;> rfl
      · intro d hd
        have hd2 : d = _ := List.eq_of_mem_singleton hd
        rw [hd2]
  · constructor
    · split <;> rfl
    · intro d hd
      have hd2 : d = _ := List.eq_of_mem_singleton hd
      rw [hd2]

/-- `mark_block_processed` leaves `unknown_txs` untouched. -/
theorem mark_block_processed_unknown_txs (h ts : Int) (db : DB) :
    (mark_block_processed h ts db).unknown_txs = db.unknown_txs := by
  unfold mark_block_processed
  dsimp only
  split <;> rfl

/-- One `process_tx` step preserves "`unknown_txs` equals its initial value,
in the working state and in every committed snapshot". -/
theorem process_tx_unknown_inv (env : Env) (h ts : Int) (u : List UnknownRow)
    (st : PBState) (tx : Tx)
    (h1 : st.db.unknown_txs = u) (h2 : ∀ d ∈ st.commits, d.unknown_txs = u) :
    (process_tx env h ts st tx).db.unknown_txs = u ∧
    ∀ d ∈ (process_tx env h ts st tx).commits, d.unknown_txs = u := by
  unfold process_tx
  by_cases hok : (!st.ok) = true
  · rw [if_pos hok]
    exact ⟨h1, h2⟩
  · rw [if_neg hok]
    dsimp only
    cases hcv : collect_vin_addresses env.lookup tx.vin with
    | none => exact ⟨h1, h2⟩
    | some vin_addrs =>
      dsimp only
      split
      · exact ⟨(store_coinbase_unknown_txs tx h ts env.pool_lookup st.miners st.db).trans h1, h2⟩
      · split
        · exact ⟨h1, h2⟩
        · split
          · exact ⟨h1, h2⟩
          · split
            · constructor
              · exact ((store_atomic_swap_unknown_txs tx h ts _ _ _ _ _ vin_addrs
                  (collect_vout_addresses tx) st.db).1).trans h1
              · intro d hd
                rcases List.mem_append.mp hd with hold | hnew
                · exact h2 d hold
                · exact ((store_atomic_swap_unknown_txs tx h ts _ _ _ _ _ vin_addrs
                    (collect_vout_addresses tx) st.db).2 d hnew).trans h1
            · split
              · exact ⟨h1, h2⟩
              · split
                · exact ⟨h1, h2⟩
                · split
                  · next hunk =>
                    exfalso
                    have hmem := classify_tx_cat_mem tx vin_addrs (collect_vout_addresses tx)
                      env.notary_lookup st.miners (some ts)
                    rw [eq_of_beq hunk] at hmem
                    revert hmem
                    decide
                  · exact ⟨h1, h2⟩

/-- The transaction fold of `process_block` preserves the `unknown_txs`
invariant. -/
theorem foldl_process_tx_unknown_inv (env : Env) (h ts : Int) (u : List UnknownRow) :
    ∀ (txs : List Tx) (st : PBState), st.db.unknown_txs = u →
      (∀ d ∈ st.commits, d.unknown_txs = u) →
      ((txs.foldl (process_tx env h ts) st).db.unknown_txs = u ∧
       ∀ d ∈ (txs.foldl (process_tx env h ts) st).commits, d.unknown_txs = u)
  | [], st, h1, h2 => ⟨h1, h2⟩
  | t :: rest, st, h1, h2 => by
    rw [List.foldl_cons]
    have hp := process_tx_unknown_inv env h ts u st t h1 h2
    exact foldl_process_tx_unknown_inv env h ts u rest _ hp.1 hp.2

/-- C9: `classify_tx` never returns the label "unknown" (its result is one
of the eight taxonomy categories), so `process_block` never reaches the
`TxType.UNKNOWN` branch: the `unknown_txs` table is never written — neither
in the final state nor in any committed snapshot — and `store_unknown`
(whose daily-stats bump it would be) is never invoked. -/
theorem classify_never_unknown :
    (∀ (tx : Tx) (vi vo : List String) (nl : List (String × Notary))
        (ma : List String) (ts : Option Int),
      (classify_tx tx vi vo nl ma ts).1 ≠ TxType.UNKNOWN ∧
      (classify_tx tx vi vo nl ma ts).1 ∈ taxonomy) ∧
    (∀ (env : Env) (h : Int) (b : Block) (db : DB) (miners : List String),
      (process_block env h b db miners).db.unknown_txs = db.unknown_txs ∧
      ∀ d ∈ (process_block env h b db miners).commits, d.unknown_txs = db.unknown_txs) := by
  constructor
  · intro tx vi vo nl ma ts
    have hmem := classify_tx_cat_mem tx vi vo nl ma ts
    refine ⟨?_, hmem⟩
    intro hu
    rw [hu] at hmem
    revert hmem
    decide
  · intro env h b db miners
    unfold process_block
    dsimp only
    have hf := foldl_process_tx_unknown_inv env h b.time db.unknown_txs b.tx
      ⟨db, miners, [], true⟩ rfl (by intro d hd; exact absurd hd (List.not_mem_nil d))
    split
    · constructor
      · exact (mark_block_processed_unknown_txs h b.time _).trans hf.1
      · intro d hd
        rcases List.mem_append.mp hd with hold | hnew
        · exact hf.2 d hold
        · have hd2 : d = _ := List.eq_of_mem_singleton hnew
          rw [hd2]
          exact (mark_block_processed_unknown_txs h b.time _).trans hf.1
    · exact hf

/-- Witness for C9 at concrete inputs. -/
theorem classify_never_unknown_witness :
    (classify_tx txUT [] ["Rout1"] [] [] (some 100)).1 ≠ TxType.UNKNOWN ∧
    (process_block env0 100 blkUT emptyDB []).db.unknown_txs = emptyDB.unknown_txs :=
  ⟨(classify_never_unknown.1 txUT [] ["Rout1"] [] [] (some 100)).1,
   (classify_never_unknown.2 env0 100 blkUT emptyDB []).1⟩

/-! ### C1: block-commit atomicity -/

/-- A `process_tx` step on a transaction that cannot classify as an
atomic-swap leg commits nothing (only `store_atomic_swap` contains
`conn.commit()`). -/
theorem process_tx_commits_of_no_swap (env : Env) (h ts : Int) (st : PBState)
    (tx : Tx) (H : NoSwapTx env ts tx) :
    (process_tx env h ts st tx).commits = st.commits := by
  unfold process_tx
  by_cases hok : (!st.ok) = true
  · rw [if_pos hok]
  · rw [if_neg hok]
    dsimp only
    cases hcv : collect_vin_addresses env.lookup tx.vin with
    | none => rfl
    | some vin_addrs =>
      dsimp only
      split
      · rfl
      · split
        · rfl
        · split
          · rfl
          · split
            · next hsw =>
              exfalso
              cases hA : ((classify_tx tx vin_addrs (collect_vout_addresses tx)
                  env.notary_lookup st.miners (some ts)).1 == TxType.ATOMIC_SWAP) with
              | true => exact (H st.miners vin_addrs).1 (eq_of_beq hA)
              | false =>
                rw [hA, Bool.false_or] at hsw
                exact (H st.miners vin_addrs).2 (eq_of_beq hsw)
            · split
              · rfl
              · split
                · rfl
                · split
                  · rfl
                  · rfl

/-- The transaction fold commits nothing when no transaction of the block
can classify as an atomic-swap leg. -/
theorem foldl_process_tx_commits_of_no_swap (env : Env) (h ts : Int) :
    ∀ (txs : List Tx), (∀ tx ∈ txs, NoSwapTx env ts tx) → ∀ (st : PBState),
      (txs.foldl (process_tx env h ts) st).commits = st.commits
  | [], _, _ => rfl
  | t :: rest, H, st => by
    rw [List.foldl_cons]
    rw [foldl_process_tx_commits_of_no_swap env h ts rest
      (fun tx htx => H tx (List.mem_cons_of_mem t htx)) (process_tx env h ts st t)]
    exact process_tx_commits_of_no_swap env h ts st t (H t (List.mem_cons_self t rest))

/-- After `mark_block_processed`, the height is checkpointed. -/
theorem is_block_processed_mark (h ts : Int) (db : DB) :
    is_block_processed (mark_block_processed h ts db) h = true := by
  unfold mark_block_processed is_block_processed
  dsimp only
  split
  · next hex => exact hex
  · simp [List.any_append]

/-- Counterexample to C1: processing the block `blkSwap` (a single
atomic-swap start transaction) on a fresh database produces TWO committed
snapshots: the first — the state a crash immediately afterwards would leave
durable — is not the initial database (the swap row is already stored, and
its daily-stats increment is not) and its height is not checkpointed, i.e.
the block is durably half-processed; only the second, final commit carries
the checkpoint.  So a block's outcomes and checkpoint are not committed as
one transaction whenever the block contains an atomic-swap leg
(`store_atomic_swap` commits mid-block). -/
theorem process_block_commits_mid_block :
    ((process_block env0 100 blkSwap emptyDB []).commits.map
      (fun d => (decide (d = emptyDB), is_block_processed d 100))) =
      [(false, false), (false, true)] := by
  norm_num +decide [process_block, process_tx, classify_tx, blkSwap, txSwapStart, env0,
    emptyDB, collect_vout_addresses, collect_vin_addresses, fetch_input_total,
    sum_vout_values, compute_fee, store_atomic_swap, swap_match, swap_apply_complete,
    update_daily_stats, insertOrIgnore, mark_block_processed, utc_date, sortedNub,
    insertSorted, spkS, is_coinbase_tx, detect_notary, has_shielded_parts,
    has_transparent_outs, vout_multisig_like, starts_with_b, first_multisig_addr,
    in_turnstile_window, is_block_processed, optTruthy, Int.fdiv]

/-- C1 (amended): for a block none of whose transactions can classify as an
atomic-swap leg, `process_block` is atomic exactly as the claim states: on
success it commits exactly once, at the very end, and that single committed
snapshot contains the whole block together with its checkpoint (so a crash
at any earlier point leaves the initial database durable and the block
entirely unprocessed); when the block aborts mid-way, nothing at all has
been committed.  Blocks containing atomic-swap legs are excluded because
`store_atomic_swap` commits mid-block (see the counterexample). -/
theorem process_block_atomic_of_no_swaps (env : Env) (h : Int) (b : Block)
    (db : DB) (miners : List String) (H : ∀ tx ∈ b.tx, NoSwapTx env b.time tx) :
    ((process_block env h b db miners).ok = true →
      (process_block env h b db miners).commits = [(process_block env h b db miners).db] ∧
      is_block_processed (process_block env h b db miners).db h = true) ∧
    ((process_block env h b db miners).ok = false →
      (process_block env h b db miners).commits = []) := by
  unfold process_block
  dsimp only
  have hc := foldl_process_tx_commits_of_no_swap env h b.time b.tx H ⟨db, miners, [], true⟩
  split
  · next hok =>
    constructor
    · intro _
      constructor
      · rw [hc]
        rfl
      · exact is_block_processed_mark h b.time _
    · intro hf
      rw [hok] at hf
      cases hf
  · next hnok =>
    constructor
    · intro ht
      rw [Bool.not_eq_true] at hnok
      rw [hnok] at ht
      cases ht
    · intro _
      exact hc

/-- Witness for C1 (amended) at a concrete block: a coinbase-only block is
committed exactly once, together with its checkpoint. -/
theorem process_block_atomic_of_no_swaps_witness :
    (process_block env0 100 blkCB emptyDB []).commits =
      [(process_block env0 100 blkCB emptyDB []).db] ∧
    is_block_processed (process_block env0 100 blkCB emptyDB []).db 100 = true := by
  have H : ∀ tx ∈ blkCB.tx, NoSwapTx env0 blkCB.time tx := by
    intro tx htx mset vin2
    have htx2 : tx = txCB := by simpa [blkCB] using htx
    subst htx2
    constructor <;> simp [classify_tx, is_coinbase_tx, txCB, TxType.COINBASE,
      TxType.ATOMIC_SWAP, TxType.ATOMIC_SWAP_COMPLETE]
  have hok : (process_block env0 100 blkCB emptyDB []).ok = true := rfl
  exact (process_block_atomic_of_no_swaps env0 100 blkCB emptyDB [] H).1 hok

/-! ### C2: the daily-stats invariant -/

/-- C2 (code bug, demonstrated at the failing input): processing the block
`blkUT` — one plain transparent transaction, classified
`unknown_transparent`, on UTC day 18048 — on a fresh database stores one
record in `unknown_transparent_txs` dated 18048, yet daily_stats holds no
(18048, "unknown_transparent") row at all: the single daily-stats row
created is (18048, "unknown") with tx_count 1, even though `unknown_txs` is
empty.  `store_unknown_transparent` passes `TxType.UNKNOWN` instead of
`TxType.UNKNOWN_TRANSPARENT` to `update_daily_stats`, so the claimed
equality "tx_count for (date, category) = number of stored records of that
category on that date" fails on both categories. -/
theorem daily_stats_unknown_transparent_mismatch :
    (process_block env0 100 blkUT emptyDB []).db.unknown_transparent_txs.map
      (fun r => r.date) = [18048] ∧
    ((process_block env0 100 blkUT emptyDB []).db.daily_stats.filter
      (fun r => r.date == 18048 && r.tx_type == TxType.UNKNOWN_TRANSPARENT)).length = 0 ∧
    (process_block env0 100 blkUT emptyDB []).db.daily_stats.map
      (fun r => (r.date, r.tx_type, r.tx_count)) = [((18048 : Int), TxType.UNKNOWN, (1 : Int))] ∧
    (process_block env0 100 blkUT emptyDB []).db.unknown_txs = [] := by
  refine ⟨?_, ?_, ?_, ?_⟩ <;>
    norm_num +decide [process_block, process_tx, classify_tx, blkUT, txUT, env0, emptyDB,
      collect_vout_addresses, collect_vin_addresses, fetch_input_total, sum_vout_values,
      compute_fee, store_unknown_transparent, update_daily_stats, insertOrIgnore,
      mark_block_processed, utc_date, sortedNub, insertSorted, spkP, is_coinbase_tx,
      detect_notary, has_shielded_parts, has_transparent_outs, vout_multisig_like,
      starts_with_b, first_multisig_addr, in_turnstile_window, is_block_processed,
      optTruthy, Int.fdiv, TxType.UNKNOWN, TxType.UNKNOWN_TRANSPARENT]

/-! ### C5: atomic-swap reconciliation -/

/-- Mapping a conditional rewrite over a list with no matching element is
the identity. -/
theorem map_ite_id_of_no_match {α : Type} (p : α → Bool) (f : α → α) :
    ∀ (l : List α), l.any p = false →
      l.map (fun r => if p r then f r else r) = l
  | [], _ => rfl
  | x :: xs, h => by
    rw [List.any_cons] at h
    have hx : p x = false := by
      cases hpx : p x
      · rfl
      · rw [hpx] at h; simp at h
    have hxs : xs.any p = false := by
      rw [hx] at h; simpa using h
    simp only [List.map_cons, hx, Bool.false_eq_true, if_false]
    rw [map_ite_id_of_no_match p f xs hxs]

/-- The SQL rowcount of the completion UPDATE is nonzero exactly when some
row matches the WHERE clause. -/
theorem filter_length_ne_zero_iff_any {α : Type} (p : α → Bool) (l : List α) :
    ((l.filter p).length ≠ 0) ↔ l.any p = true := by
  rw [ne_eq, List.length_eq_zero, List.filter_eq_nil_iff, List.any_eq_true]
  constructor
  · intro hne
    by_contra hex
    push_neg at hex
    exact hne (fun a ha => by
      intro hpa
      exact absurd hpa (by simpa using hex a ha))
  · rintro ⟨x, hx, hpx⟩ hall
    exact hall x hx hpx

/-- Counterexample to C5: two stored `start` legs (`s1` at height 100, `s2`
at height 101) share the swap address bMulti; the completing transaction
updates BOTH rows — the older `s1`, not only the most recent `s2`, has its
phase set to `complete` and the completion's fee/values folded in — whereas
the claim says only the most recent matching record is updated. -/
theorem store_atomic_swap_updates_all_matching_starts :
    dbS2.atomic_swap_txs.map (fun r => (r.txid, r.phase)) =
      [("s1", "start"), ("s2", "start")] ∧
    (store_atomic_swap txSwapComplete 102 1559347300 (some 0) 0 1 "complete"
      (some "bMulti") ["bMulti"] [] dbS2).1.atomic_swap_txs.map
        (fun r => (r.txid, r.phase, r.complete_txid)) =
      [("s1", "complete", some "c1"), ("s2", "complete", some "c1")] := by
  constructor <;>
    norm_num +decide [dbS2, dbS1, store_atomic_swap, txSwapStart, txSwapStart2,
      txSwapComplete, emptyDB, swap_match, swap_apply_complete, update_daily_stats,
      insertOrIgnore, utc_date, sortedNub, insertSorted, spkS, optTruthy, Int.fdiv,
      TxType.ATOMIC_SWAP]

/-- C5 (amended): on a `complete` classification with a non-empty swap
address: if any stored record with phase `start` and the same swap address
exists, then EVERY such record (not only the most recent) is updated —
phase set to `complete`, the completing transaction's txid/height/timestamp
recorded, fee/total_in/total_out accumulated (total_out becomes the sum of
both legs' outputs) — no new row is inserted and the daily stats are
untouched; if no record matches, a standalone row with phase `complete` is
inserted (insert-if-absent keyed by txid), again without touching daily
stats. -/
theorem store_atomic_swap_complete_reconciliation (db : DB) (tx : Tx)
    (bh ts2 : Int) (total_in : Option ℚ) (total_out fee : ℚ) (a : String)
    (vin vout : List String) (ha : a ≠ "") :
    (db.atomic_swap_txs.any (swap_match a) = true →
      (store_atomic_swap tx bh ts2 total_in total_out fee "complete" (some a) vin vout db).1.atomic_swap_txs =
        db.atomic_swap_txs.map (fun r =>
          if swap_match a r then
            swap_apply_complete tx.txid bh ts2 fee (total_in.getD 0) total_out r
          else r) ∧
      (store_atomic_swap tx bh ts2 total_in total_out fee "complete" (some a) vin vout db).1.daily_stats =
        db.daily_stats ∧
      (store_atomic_swap tx bh ts2 total_in total_out fee "complete" (some a) vin vout db).1.atomic_swap_txs.length =
        db.atomic_swap_txs.length) ∧
    (db.atomic_swap_txs.any (swap_match a) = false →
      (store_atomic_swap tx bh ts2 total_in total_out fee "complete" (some a) vin vout db).1.atomic_swap_txs =
        insertOrIgnore SwapRow.txid
          ⟨tx.txid, bh, ts2, utc_date ts2, "complete", some a, none, none, none,
           sortedNub vin, sortedNub vout, total_in, some total_out, some fee⟩
          db.atomic_swap_txs ∧
      (store_atomic_swap tx bh ts2 total_in total_out fee "complete" (some a) vin vout db).1.daily_stats =
        db.daily_stats) := by
  unfold store_atomic_swap
  dsimp only
  simp only [Option.getD_some]
  have hcond : (("complete" == "complete") && optTruthy (some a)) = true := by
    simp [optTruthy, ha]
  split
  · split
    · next hrc =>
      constructor
      · intro _
        exact ⟨rfl, rfl, by simp⟩
      · intro hnm
        exfalso
        have := (filter_length_ne_zero_iff_any (swap_match a) db.atomic_swap_txs).mp hrc
        rw [this] at hnm
        cases hnm
    · next hrc =>
      have hany : db.atomic_swap_txs.any (swap_match a) = false := by
        cases hx : db.atomic_swap_txs.any (swap_match a)
        · rfl
        · exact absurd ((filter_length_ne_zero_iff_any (swap_match a) db.atomic_swap_txs).mpr hx) hrc
      have hmapid := map_ite_id_of_no_match (swap_match a)
        (swap_apply_complete tx.txid bh ts2 fee (total_in.getD 0) total_out)
        db.atomic_swap_txs hany
      constructor
      · intro hm
        rw [hm] at hany
        cases hany
      · intro _
        have hphase : (("complete" : String) == "start") = false := by decide
        constructor
        · simp only [hphase, Bool.false_eq_true, if_false]
          rw [hmapid]
        · simp only [hphase, Bool.false_eq_true, if_false]
  · next hc => exact absurd hcond hc

/-- Witness for C5 (amended): completing against the single stored start
leg of `dbS1` changes no daily-stats row and keeps the table length. -/
theorem store_atomic_swap_complete_reconciliation_witness :
    dbS1.atomic_swap_txs.any (swap_match "bMulti") = true ∧
    (store_atomic_swap txSwapComplete 102 1559347300 (some 0) 0 1 "complete"
      (some "bMulti") ["bMulti"] [] dbS1).1.daily_stats = dbS1.daily_stats ∧
    (store_atomic_swap txSwapComplete 102 1559347300 (some 0) 0 1 "complete"
      (some "bMulti") ["bMulti"] [] dbS1).1.atomic_swap_txs.length =
      dbS1.atomic_swap_txs.length := by
  have h := store_atomic_swap_complete_reconciliation dbS1 txSwapComplete 102 1559347300
    (some 0) 0 1 "bMulti" ["bMulti"] [] (by decide)
  have hany : dbS1.atomic_swap_txs.any (swap_match "bMulti") = true := by decide
  exact ⟨hany, (h.1 hany).2.1, (h.1 hany).2.2⟩

/-! ### C10: fetch_input_total -/

/-- Pushing an existential through a cons whose head cannot satisfy it. -/
theorem exists_mem_cons_of_head_no {α : Type} (P : α → Prop) (v : α)
    (rest : List α) (hv : ¬ P v) :
    (∃ x ∈ v :: rest, P x) ↔ (∃ x ∈ rest, P x) := by
  constructor
  · rintro ⟨x, hx, hP⟩
    rcases List.mem_cons.mp hx with rfl | hx2
    · exact absurd hP hv
    · exact ⟨x, hx2, hP⟩
  · rintro ⟨x, hx, hP⟩
    exact ⟨x, List.mem_cons_of_mem v hx, hP⟩

/-- C10: `fetch_input_total` is unavailable (`none`) exactly when some input
carries a previous-txid reference whose resolution raises; an input with no
txid is skipped, as is one with a txid that resolves but has no output index
or an out-of-range index (each contributing 0); in particular a transaction
none of whose inputs reference a previous txid (e.g. only a coinbase input)
totals `some 0`, not unavailable. -/
theorem fetch_input_total_behavior (lookup : String → Option Tx) :
    (∀ (vins : List VIn),
      (fetch_input_total lookup vins = none ↔
        ∃ v ∈ vins, ∃ p, v.txid = some p ∧ lookup p = none)) ∧
    (∀ (vins : List VIn), (∀ v ∈ vins, v.txid = none) →
      fetch_input_total lookup vins = some 0) ∧
    (∀ (v : VIn) (rest : List VIn) (p : String) (prev : Tx),
      v.txid = some p → lookup p = some prev → v.voutIdx = none →
      fetch_input_total lookup (v :: rest) = fetch_input_total lookup rest) ∧
    (∀ (v : VIn) (rest : List VIn) (p : String) (prev : Tx) (i : Nat),
      v.txid = some p → lookup p = some prev → v.voutIdx = some i →
      prev.vout.length ≤ i →
      fetch_input_total lookup (v :: rest) = fetch_input_total lookup rest) := by
  refine ⟨?_, ?_, ?_, ?_⟩
  · intro vins
    induction vins with
    | nil => simp [fetch_input_total]
    | cons v rest ih =>
      cases ht : v.txid with
      | none =>
        simp only [fetch_input_total, ht]
        rw [ih]
        exact (exists_mem_cons_of_head_no _ v rest
          (by rintro ⟨p, hp, _⟩; rw [ht] at hp; cases hp)).symm
      | some p =>
        cases hl : lookup p with
        | none =>
          simp only [fetch_input_total, ht, hl]
          constructor
          · intro _
            exact ⟨v, List.mem_cons_self v rest, p, ht, hl⟩
          · intro _
            trivial
        | some prev =>
          have hno : ¬ ∃ q, v.txid = some q ∧ lookup q = none := by
            rintro ⟨q, hq, hlq⟩
            rw [ht] at hq
            cases hq
            rw [hl] at hlq
            cases hlq
          cases hv : v.voutIdx with
          | none =>
            simp only [fetch_input_total, ht, hl, hv]
            rw [ih]
            exact (exists_mem_cons_of_head_no _ v rest hno).symm
          | some i =>
            cases hg : prev.vout.get? i with
            | none =>
              simp only [fetch_input_total, ht, hl, hv, hg]
              rw [ih]
              exact (exists_mem_cons_of_head_no _ v rest hno).symm
            | some pv =>
              simp only [fetch_input_total, ht, hl, hv, hg]
              rw [Option.map_eq_none']
              rw [ih]
              exact (exists_mem_cons_of_head_no _ v rest hno).symm
  · intro vins
    induction vins with
    | nil => intro _; rfl
    | cons v rest ih =>
      intro h
      have hv := h v (List.mem_cons_self v rest)
      simp only [fetch_input_total, hv]
      exact ih (fun x hx => h x (List.mem_cons_of_mem v hx))
  · intro v rest p prev ht hl hv
    simp only [fetch_input_total, ht, hl, hv]
  · intro v rest p prev i ht hl hv hlen
    have hg : prev.vout.get? i = none := List.get?_eq_none.mpr hlen
    simp only [fetch_input_total, ht, hl, hv, hg]

/-- Witness for C10: a transaction whose only input is a coinbase marker
(no previous-txid reference) totals `some 0` even though every lookup
fails. -/
theorem fetch_input_total_behavior_witness :
    (∀ v ∈ [VIn.mk true none none none], v.txid = none) ∧
    fetch_input_total (fun _ => none) [VIn.mk true none none none] = some 0 :=
  ⟨by decide,
   (fetch_input_total_behavior (fun _ => none)).2.1 [VIn.mk true none none none] (by decide)⟩

end PirateScan
